import Mathlib

/-!
Verification development for the Telegram moderation bot (`bot.py`).

The Python source is shallowly embedded below: the module-level constants,
the spam detector (`check_for_spam`, `check_recent_spam`,
`cleanup_spam_records`), the message classification pipeline
(`check_message`) and the brand-assets broadcaster (`post_brand_assets`)
become pure Lean functions over an explicit state type.  Timestamps are
integers counting seconds; the global dictionaries `SPAM_TRACKER` and
`SPAM_RECORDS` become association lists threaded through every call.
External platform calls (ban, mute, delete, send) are reflected in an
`Outcome` value rather than performed.
-/

abbrev UserId := Nat

abbrev Time := Int

/-- `SPAM_THRESHOLD = 3` from the source. -/
def SPAM_THRESHOLD : Nat := 3

/-- `TIME_WINDOW = timedelta(seconds=15)` from the source, in seconds. -/
def TIME_WINDOW : Time := 15

/-- `SPAM_RECORD_DURATION = timedelta(minutes=5)` from the source, in seconds. -/
def SPAM_RECORD_DURATION : Time := 300

/-- `MUTE_DURATION = 3 * 24 * 60 * 60` from the source. -/
def MUTE_DURATION : Nat := 3 * 24 * 60 * 60

/-- The `SUSPICIOUS_USERNAMES` list from the source.  Note the missing comma
in the Python literal between `"arc agent"` and `"arch_agent"`: Python
string juxtaposition concatenates them into the single element
`"arc agentarch_agent"`, reproduced faithfully here. -/
def SUSPICIOUS_USERNAMES : List String :=
  ["dev", "developer", "admin", "mod", "owner", "arc", "arc_agent",
   "arc agentarch_agent", "arch agent", "support", "helpdesk",
   "administrator", "arc admin", "arc_admin"]

/-- Python `str.lower()` on the underlying character list (ASCII case map). -/
def lowerStr (s : String) : String :=
  String.mk (s.data.map Char.toLower)

/-- Python `str.strip()`: drop leading and trailing whitespace. -/
def stripStr (s : String) : String :=
  String.mk (((s.data.dropWhile Char.isWhitespace).reverse.dropWhile
    Char.isWhitespace).reverse)

/-- Python `len` on a string, as a character count. -/
def strLen (s : String) : Nat := s.data.length

/-- A regex word character, `\w` = letters, digits and underscore (ASCII). -/
def isWordChar (c : Char) : Bool := c.isAlphanum || c == '_'

/-- Whether an optional character (a position just outside the text counts
as absent) is a word character. -/
def optWord : Option Char → Bool
  | some c => isWordChar c
  | none => false

/-- Whether the list `s` starts with the list `p`. -/
def listStartsWith : List Char → List Char → Bool
  | _, [] => true
  | [], _ :: _ => false
  | a :: s, b :: p => a == b && listStartsWith s p

/-- Plain substring containment, Python `sub in s`. -/
def containsSubstr : List Char → List Char → Bool
  | [], sub => sub.isEmpty
  | c :: rest, sub => listStartsWith (c :: rest) sub || containsSubstr rest sub

/-- A `\b` word boundary holds between two adjacent positions when exactly
one side is a word character. -/
def boundaryOk (a b : Option Char) : Bool := optWord a != optWord b

/-- Match of `\b p \b` (with `p` a literal, as produced by `re.escape`)
at the current position: `prev` is the character just before the position,
`s` the remaining text. -/
def wbMatchAt (prev : Option Char) (s p : List Char) : Bool :=
  listStartsWith s p &&
  boundaryOk prev s.head? &&
  boundaryOk (if p.isEmpty then prev else p.getLast?) (s.drop p.length).head?

/-- `re.search` of `\b p \b`: try every start position. -/
def wbSearch : Option Char → List Char → List Char → Bool
  | prev, [], p => wbMatchAt prev [] p
  | prev, c :: rest, p => wbMatchAt prev (c :: rest) p || wbSearch (some c) rest p

/-- `re.search(r'\b' + re.escape(phrase) + r'\b', text)` as a Boolean. -/
def containsWordBounded (text phrase : String) : Bool :=
  wbSearch none text.data phrase.data

/-- Tail condition of the filter-trigger pattern after the literal trigger:
`(_\w+)?(?!\w)`.  Either the next character is absent or not a word
character, or an underscore followed by at least one word character lets the
optional `_\w+` group absorb the suffix (the group being greedy, a maximal
word run always ends at a non-word character or the end of the text, where
the lookahead succeeds). -/
def afterTrigger : List Char → Bool
  | [] => true
  | '_' :: rest =>
    match rest with
    | [] => false
    | c :: _ => isWordChar c
  | c :: _ => !isWordChar c

/-- Match of the filter-trigger pattern `(?<!\w)/?TRIG(_\w+)?(?!\w)` at the
current position. -/
def trigMatchAt (prev : Option Char) (s trig : List Char) : Bool :=
  !optWord prev &&
  ((listStartsWith s trig && afterTrigger (s.drop trig.length)) ||
   (match s with
    | '/' :: rest => listStartsWith rest trig && afterTrigger (rest.drop trig.length)
    | _ => false))

/-- `re.search` of the filter-trigger pattern: try every start position. -/
def trigSearch : Option Char → List Char → List Char → Bool
  | prev, [], trig => trigMatchAt prev [] trig
  | prev, c :: rest, trig => trigMatchAt prev (c :: rest) trig || trigSearch (some c) rest trig

/-- Lines 190 to 193 and 255 to 259 of the source: the trigger is
normalized with `trigger.strip().lower()` and searched in the (already
lowercased) message text with the pattern
`(?<!\w)/?{re.escape(normalized_trigger)}(_\w+)?(?!\w)`. -/
def filter_trigger_match (trigger message_text : String) : Bool :=
  trigSearch none message_text.data (lowerStr (stripStr trigger)).data

/-- After the first digit of the left alternative `(?:\d\s*)+x`: digits and
whitespace may continue until an `x` is reached. -/
def multAfterDigit : List Char → Bool
  | [] => false
  | c :: rest =>
    if c == 'x' then true
    else if c.isDigit || c.isWhitespace then multAfterDigit rest
    else false

/-- Search for the left alternative `(?:\d\s*)+x` of the multiplication
pattern. -/
def multLeftSearch : List Char → Bool
  | [] => false
  | c :: rest => (c.isDigit && multAfterDigit rest) || multLeftSearch rest

/-- After the `x` of the right alternative `x\s*(?:\d\s*)+`: whitespace may
continue until a digit is reached. -/
def multAfterX : List Char → Bool
  | [] => false
  | c :: rest =>
    if c.isDigit then true
    else if c.isWhitespace then multAfterX rest
    else false

/-- Search for the right alternative `x\s*(?:\d\s*)+`. -/
def multRightSearch : List Char → Bool
  | [] => false
  | c :: rest => (c == 'x' && multAfterX rest) || multRightSearch rest

/-- `contains_multiplication_phrase` from the source: lowercase the text and
search `(?:\d\s*)+x|x\s*(?:\d\s*)+`. -/
def contains_multiplication_phrase (text : String) : Bool :=
  multLeftSearch (lowerStr text).data || multRightSearch (lowerStr text).data

/-- Lookup in an association list keyed by strings (a Python dict). -/
def alookup {β : Type} : List (String × β) → String → Option β
  | [], _ => none
  | (k, v) :: rest, key => if k = key then some v else alookup rest key

/-- Assignment `d[key] = v` on an association list with unique keys. -/
def ainsert {β : Type} : List (String × β) → String → β → List (String × β)
  | [], key, v => [(key, v)]
  | (k, w) :: rest, key, v =>
    if k = key then (k, v) :: rest else (k, w) :: ainsert rest key v

/-- Deletion `d.pop(key, None)` on an association list with unique keys. -/
def aerase {β : Type} : List (String × β) → String → List (String × β)
  | [], _ => []
  | (k, w) :: rest, key => if k = key then rest else (k, w) :: aerase rest key

/-- One value of `SPAM_TRACKER`: a Python `deque` of `(user_id, timestamp)`
pairs carrying its own `maxlen` (`none` when unbounded). -/
structure Window where
  entries : List (UserId × Time)
  maxlen : Option Nat
deriving DecidableEq

/-- `deque.append`: past capacity the leftmost entries are discarded (a
deque with `maxlen=0` stays empty). -/
def Window.append (w : Window) (e : UserId × Time) : Window :=
  match w.maxlen with
  | none => Window.mk (w.entries ++ [e]) none
  | some m =>
    if m = 0 then Window.mk w.entries (some m)
    else if m ≤ w.entries.length then
      Window.mk ((w.entries.drop (w.entries.length + 1 - m)) ++ [e]) (some m)
    else Window.mk (w.entries ++ [e]) (some m)

/-- The process-wide mutable spam state: `SPAM_TRACKER` (per-text window)
and `SPAM_RECORDS` (per-text flag timestamp). -/
structure SpamState where
  tracker : List (String × Window)
  records : List (String × Time)
deriving DecidableEq

/-- Lines 108 to 111 of the source: `SPAM_TRACKER[message_text]` (a fresh
`deque(maxlen=SPAM_THRESHOLD)` when the key is absent), `.append((user_id,
now))`, then the list comprehension keeping entries within `TIME_WINDOW`. -/
def recent_entries (st : SpamState) (message_text : String) (uid : UserId) (now : Time) :
    List (UserId × Time) :=
  ((((alookup st.tracker message_text).getD
      (Window.mk [] (some SPAM_THRESHOLD))).append (uid, now)).entries).filter
    (fun e => decide (now - e.2 ≤ TIME_WINDOW))

/-- Line 112 of the source: `SPAM_TRACKER[message_text] = deque(recent)`.
The replacement deque is built without a `maxlen`, so its capacity bound is
lost. -/
def tracker_after (st : SpamState) (message_text : String) (uid : UserId) (now : Time) :
    List (String × Window) :=
  ainsert st.tracker message_text (Window.mk (recent_entries st message_text uid now) none)

/-- `check_for_spam` from the source: append the observation, prune to the
time window, flag and return the distinct senders when the threshold is
reached, otherwise optionally garbage-collect the key and return `[]`. -/
def check_for_spam (st : SpamState) (message_text : String) (uid : UserId) (now : Time) :
    List UserId × SpamState :=
  if SPAM_THRESHOLD ≤ (recent_entries st message_text uid now).length then
    (((recent_entries st message_text uid now).map Prod.fst).dedup,
     SpamState.mk (tracker_after st message_text uid now)
       (ainsert st.records message_text now))
  else
    match recent_entries st message_text uid now with
    | [] => ([], SpamState.mk (tracker_after st message_text uid now) st.records)
    | e :: _ =>
      if (recent_entries st message_text uid now).length < SPAM_THRESHOLD ∧
          TIME_WINDOW < now - e.2 then
        ([], SpamState.mk (aerase (tracker_after st message_text uid now) message_text)
          st.records)
      else
        ([], SpamState.mk (tracker_after st message_text uid now) st.records)

/-- `check_recent_spam` from the source: a stored timestamp is always truthy,
so the result is the test `now - timestamp <= SPAM_RECORD_DURATION`. -/
def check_recent_spam (st : SpamState) (message_text : String) (now : Time) : Bool :=
  match alookup st.records message_text with
  | none => false
  | some ts => decide (now - ts ≤ SPAM_RECORD_DURATION)

/-- `cleanup_spam_records` from the source: delete every record with
`now - timestamp > SPAM_RECORD_DURATION`; the tracker is untouched. -/
def cleanup_spam_records (st : SpamState) (now : Time) : SpamState :=
  SpamState.mk st.tracker
    (st.records.filter (fun r => !(decide (SPAM_RECORD_DURATION < now - r.2))))

/-- One entry of the loaded `FILTERS` table. -/
structure FilterData where
  response_text : String
  media : Option String
  media_type : String
deriving DecidableEq

/-- The tables loaded from disk at startup, passed as read-only inputs. -/
structure Config where
  FILTERS : List (String × FilterData)
  BAN_PHRASES : List String
  MUTE_PHRASES : List String
  DELETE_PHRASES : List String
  WHITELIST_PHRASES : List String
deriving DecidableEq

/-- An incoming message as seen by `check_message`: `text` is `none` for a
non-text message (Python `message.text is None`). -/
structure Msg where
  user_id : UserId
  full_name : String
  username : Option String
  text : Option String
  date : Time
deriving DecidableEq

/-- The terminal action of one run of `check_message`. `errored` records an
uncaught exception, `noop` a silent return, and the remaining constructors
the moderation primitive (or filter response) issued before returning. -/
inductive Outcome where
  | errored
  | noop
  | deletedShort
  | bannedSuspicious
  | deletedMultiplication
  | spamMuted (uids : List UserId)
  | phraseBanned
  | phraseMuted
  | phraseDeleted
  | responded (trigger : String)
  | allowed
deriving DecidableEq

/-- Lines 179 to 180 of the source: the combined display name and handle,
lowercased, tested for each suspicious substring. -/
def suspicious_name (m : Msg) : Bool :=
  SUSPICIOUS_USERNAMES.any (fun k =>
    containsSubstr (lowerStr (m.full_name ++ " " ++ m.username.getD "")).data k.data)

/-- Lines 189 to 202 of the source: the spam check is skipped when some
filter trigger matches or the stripped text is present verbatim in the
whitelist. -/
def should_skip_spam (cfg : Config) (message_text : String) : Bool :=
  cfg.FILTERS.any (fun f => filter_trigger_match f.1 message_text) ||
  cfg.WHITELIST_PHRASES.contains (stripStr message_text)

/-- Lines 207 to 210 of the source: run `check_for_spam`, then add the
current sender when the text is recently flagged and they are not already in
the returned list. -/
def spam_mute_set (st : SpamState) (message_text : String) (uid : UserId) (now : Time) :
    List UserId × SpamState :=
  if check_recent_spam (check_for_spam st message_text uid now).2 message_text now &&
      !(decide (uid ∈ (check_for_spam st message_text uid now).1)) then
    ((check_for_spam st message_text uid now).1 ++ [uid],
     (check_for_spam st message_text uid now).2)
  else check_for_spam st message_text uid now

/-- Lines 254 to 278 of the source: first filter whose trigger pattern
matches the message text. -/
def find_filter (filters : List (String × FilterData)) (message_text : String) :
    Option (String × FilterData) :=
  filters.find? (fun f => filter_trigger_match f.1 message_text)

/-- The final filter-response loop: respond once for the first matching
trigger, otherwise fall through with no action. -/
def filter_dispatch (cfg : Config) (message_text : String) : Outcome :=
  match find_filter cfg.FILTERS message_text with
  | some p => Outcome.responded p.1
  | none => Outcome.allowed

/-- Lines 226 to 251 of the source: the three blocklist loops, in order,
each returning on its first word-bounded match, then the filter responses. -/
def phrase_cascade (cfg : Config) (message_text : String) : Outcome :=
  if cfg.BAN_PHRASES.any (fun p => containsWordBounded message_text p) then
    Outcome.phraseBanned
  else if cfg.MUTE_PHRASES.any (fun p => containsWordBounded message_text p) then
    Outcome.phraseMuted
  else if cfg.DELETE_PHRASES.any (fun p => containsWordBounded message_text p) then
    Outcome.phraseDeleted
  else filter_dispatch cfg message_text

/-- `check_message` from the source.  Line 161 evaluates
`message.text.lower()` before the line 167 guard, so a message without text
raises `AttributeError` (`Outcome.errored`); an empty text string is falsy
and hits the guard.  Everything from the length check to the delete-phrase
check sits inside `if user_id not in admin_ids`, and the filter responses at
line 253 apply to everyone who has not returned earlier. -/
def check_message (cfg : Config) (st : SpamState) (m : Msg) (admin_ids : List UserId)
    (now : Time) : Outcome × SpamState :=
  match m.text with
  | none => (Outcome.errored, st)
  | some t =>
    if t = "" then (Outcome.noop, st)
    else if m.user_id ∈ admin_ids then (filter_dispatch cfg (lowerStr t), st)
    else if strLen (stripStr (lowerStr t)) < 2 then (Outcome.deletedShort, st)
    else if suspicious_name m then (Outcome.bannedSuspicious, st)
    else if contains_multiplication_phrase (lowerStr t) then
      (Outcome.deletedMultiplication, st)
    else if should_skip_spam cfg (lowerStr t) then (phrase_cascade cfg (lowerStr t), st)
    else if (spam_mute_set st (lowerStr t) m.user_id now).1.isEmpty then
      (phrase_cascade cfg (lowerStr t), (spam_mute_set st (lowerStr t) m.user_id now).2)
    else
      (Outcome.spamMuted (spam_mute_set st (lowerStr t) m.user_id now).1.dedup,
       (spam_mute_set st (lowerStr t) m.user_id now).2)

/-- `post_brand_assets` from the source: send then pin each message in
order, with no exception handling, so a failing send or pin propagates and
ends the run.  `sendOk` and `pinOk` model the platform collaborator; the
result is the list of messages for which a send was attempted. -/
def post_brand_assets (sendOk pinOk : String → Bool) : List String → List String
  | [] => []
  | msg :: rest =>
    if sendOk msg then
      if pinOk msg then msg :: post_brand_assets sendOk pinOk rest
      else [msg]
    else [msg]

/-! ### Auxiliary lemmas about the association-list maps -/

theorem alookup_ainsert_self {β : Type} (l : List (String × β)) (k : String) (v : β) :
    alookup (ainsert l k v) k = some v := by
  induction l with
  | nil => simp [ainsert, alookup]
  | cons p rest ih =>
    obtain ⟨k', v'⟩ := p
    by_cases h : k' = k
    · simp [ainsert, alookup, h]
    · simp [ainsert, alookup, h, ih]

theorem check_for_spam_records (st : SpamState) (text : String) (uid : UserId)
    (now : Time) :
    ((check_for_spam st text uid now).2).records = st.records ∨
    ((check_for_spam st text uid now).2).records = ainsert st.records text now := by
  unfold check_for_spam
  split
  · right; rfl
  · split
    · left; rfl
    · split
      · left; rfl
      · left; rfl

theorem filter_dispatch_shape (cfg : Config) (message_text : String) :
    (∃ p, p ∈ cfg.FILTERS ∧ filter_trigger_match p.1 message_text = true ∧
      filter_dispatch cfg message_text = Outcome.responded p.1) ∨
    filter_dispatch cfg message_text = Outcome.allowed := by
  unfold filter_dispatch find_filter
  cases h : cfg.FILTERS.find? (fun f => filter_trigger_match f.1 message_text) with
  | none => right; rfl
  | some p =>
    left
    refine ⟨p, List.mem_of_find?_eq_some h, ?_, rfl⟩
    have hp := List.find?_some h
    simpa using hp

theorem filter_dispatch_ne_spamMuted (cfg : Config) (message_text : String)
    (l : List UserId) : filter_dispatch cfg message_text ≠ Outcome.spamMuted l := by
  unfold filter_dispatch find_filter
  cases h : cfg.FILTERS.find? (fun f => filter_trigger_match f.1 message_text) <;> simp

theorem phrase_cascade_ne_spamMuted (cfg : Config) (message_text : String)
    (l : List UserId) : phrase_cascade cfg message_text ≠ Outcome.spamMuted l := by
  unfold phrase_cascade
  split_ifs <;> first
    | exact filter_dispatch_ne_spamMuted cfg message_text l
    | simp

/-! ### Claim theorems -/

/-- C6: `check_recent_spam` returns true exactly when a flag record exists for
the text and its age is at most the retention period, and
`cleanup_spam_records` keeps exactly the records whose age is within the
retention period while leaving the tracker untouched. -/
theorem recent_flag_iff_and_sweep_frame (st : SpamState) (text : String) (now : Time) :
    (check_recent_spam st text now = true ↔
      ∃ ts, alookup st.records text = some ts ∧ now - ts ≤ SPAM_RECORD_DURATION) ∧
    (cleanup_spam_records st now).tracker = st.tracker ∧
    (cleanup_spam_records st now).records =
      st.records.filter (fun r => decide (now - r.2 ≤ SPAM_RECORD_DURATION)) := by
  refine ⟨?_, rfl, ?_⟩
  · unfold check_recent_spam
    cases h : alookup st.records text with
    | none => simp
    | some ts => simp
  · unfold cleanup_spam_records
    simp only
    apply List.filter_congr
    intro x _
    rw [← decide_not]
    exact decide_eq_decide.mpr not_lt

/-- C7 (code bug): `check_message` evaluates `message.text.lower()` before the
`not message.text` guard, so a message without text does not complete as a
no-op: the embedded code reaches the `AttributeError` outcome instead of the
guard intended for it. -/
theorem no_text_message_errors (cfg : Config) (st : SpamState) (uid : UserId)
    (name : String) (username : Option String) (date : Time)
    (admin_ids : List UserId) (now : Time) :
    check_message cfg st (Msg.mk uid name username none date) admin_ids now =
      (Outcome.errored, st) := rfl

/-- C4 (code bug): after any `check_for_spam` call the key is still present in
the tracker.  The garbage-collection branch compares the head of the list
that was already pruned to the time window against the time window, so its
guard can never hold and the key is never dropped, contrary to the claim. -/
theorem observe_key_always_present (st : SpamState) (text : String) (uid : UserId)
    (now : Time) :
    (alookup ((check_for_spam st text uid now).2).tracker text).isSome = true := by
  unfold check_for_spam
  split
  · simp [tracker_after, alookup_ainsert_self]
  · split
    · simp [tracker_after, alookup_ainsert_self]
    · rename_i e tail heq
      split
      · rename_i hcond
        exfalso
        have hmem : e ∈ recent_entries st text uid now := by
          rw [heq]; exact List.mem_cons_self e tail
        unfold recent_entries at hmem
        have hdec := List.of_mem_filter hmem
        have hle : now - e.2 ≤ TIME_WINDOW := of_decide_eq_true hdec
        exact absurd hcond.2 (not_lt.mpr hle)
      · simp [tracker_after, alookup_ainsert_self]

/-- Four identical texts from four senders inside the time window, the state
used by `spam_window_exceeds_threshold`. -/
def overflow_state : SpamState :=
  (check_for_spam ((check_for_spam ((check_for_spam ((check_for_spam
    (SpamState.mk [] []) "abc" 1 0).2) "abc" 2 1).2) "abc" 3 2).2) "abc" 4 3).2

/-- C3 (code bug): after the first observation the window is stored back as a
deque without a `maxlen`, so a fourth in-window observation leaves four
entries in the window, exceeding the claimed capacity bound of
`SPAM_THRESHOLD = 3` with no eviction of the oldest entry. -/
theorem spam_window_exceeds_threshold :
    alookup overflow_state.tracker "abc" =
      some (Window.mk [(1, 0), (2, 1), (3, 2), (4, 3)] none) ∧
    SPAM_THRESHOLD < (Window.mk [(1, 0), (2, 1), (3, 2), (4, 3)] none).entries.length := by
  exact ⟨by decide, by decide⟩

/-- A platform stub for `brand_assets_abort_on_failure` in which sending the
message `"one"` fails. -/
def brand_send_fails_one : String → Bool := fun msg => !(msg == "one")

/-- C10 counterexample: with two scheduled messages and a send failure on the
first, the run attempts only the first message; the second is never
attempted, so a failure does abort the remaining messages. -/
theorem brand_assets_abort_on_failure :
    post_brand_assets brand_send_fails_one (fun _ => true) ["one", "two"] = ["one"] ∧
    "two" ∉ post_brand_assets brand_send_fails_one (fun _ => true) ["one", "two"] := by
  exact ⟨by decide, by decide⟩

/-- C10 (amended): a failure to send or pin a message ends the run at that
message: the messages before it are attempted in order, the failing message
is attempted, and no later message is attempted. -/
theorem brand_assets_stop_at_first_failure (pre : List String) (msg : String)
    (rest : List String) (sendOk pinOk : String → Bool)
    (hpre : ∀ x ∈ pre, sendOk x = true ∧ pinOk x = true)
    (hfail : sendOk msg = false ∨ pinOk msg = false) :
    post_brand_assets sendOk pinOk (pre ++ msg :: rest) = pre ++ [msg] := by
  induction pre with
  | nil =>
    simp only [List.nil_append]
    cases hfail with
    | inl h => simp [post_brand_assets, h]
    | inr h =>
      cases hs : sendOk msg with
      | false => simp [post_brand_assets, hs]
      | true => simp [post_brand_assets, hs, h]
  | cons x xs ih =>
    have hx := hpre x (List.mem_cons_self x xs)
    have hxs : ∀ y ∈ xs, sendOk y = true ∧ pinOk y = true :=
      fun y hy => hpre y (List.mem_cons_of_mem x hy)
    simp [post_brand_assets, hx.1, hx.2, ih hxs]

/-- Witness for `brand_assets_stop_at_first_failure`: sends succeed only for
the message `"a"`, so the run over three messages attempts exactly the first
two. -/
theorem brand_assets_stop_witness :
    post_brand_assets (fun s => s == "a") (fun _ => true) ["a", "b", "c"] = ["a", "b"] :=
  brand_assets_stop_at_first_failure ["a"] "b" ["c"] (fun s => s == "a")
    (fun _ => true) (by decide) (Or.inl (by decide))

/-- The empty spam state. -/
def st0 : SpamState := SpamState.mk [] []

/-- A configuration with all loaded tables empty. -/
def cfgE : Config := Config.mk [] [] [] [] []

/-- A sample filter payload. -/
def fd0 : FilterData := FilterData.mk "hi there" none "gif"

/-- A configuration with one filter trigger and one ban phrase. -/
def cfg1 : Config := Config.mk [("hello", fd0)] ["scam"] [] [] []

/-- C1 counterexample: the text matches the filter trigger `hello`, which per
the claim should skip the ban-phrase and mute-phrase checks, yet the message
also contains the ban phrase `scam` and the pipeline bans the sender: the
ban-phrase check did run. -/
theorem filter_match_still_bans_phrase :
    check_message cfg1 st0 (Msg.mk 7 "bob" none (some "hello scam") 0) [] 0 =
      (Outcome.phraseBanned, st0) := by decide

/-- C1 (amended): a filter-trigger or whitelist match marks the message
spam-check exempt and skips only the spam-detector step: the spam state is
not consulted or modified and no spam mute can result, while the ban-phrase,
mute-phrase and delete-phrase checks (and finally the filter responses) are
still evaluated. -/
theorem filter_whitelist_skip_only_spam (cfg : Config) (st : SpamState) (m : Msg)
    (admin_ids : List UserId) (now : Time) (t : String)
    (ht : m.text = some t) (hne : t ≠ "") (hadm : m.user_id ∉ admin_ids)
    (hlen : ¬ strLen (stripStr (lowerStr t)) < 2)
    (hsus : suspicious_name m = false)
    (hmul : contains_multiplication_phrase (lowerStr t) = false)
    (hskip : should_skip_spam cfg (lowerStr t) = true) :
    check_message cfg st m admin_ids now = (phrase_cascade cfg (lowerStr t), st) ∧
    ∀ l, phrase_cascade cfg (lowerStr t) ≠ Outcome.spamMuted l := by
  refine ⟨?_, phrase_cascade_ne_spamMuted cfg (lowerStr t)⟩
  simp [check_message, ht, hne, hadm, hlen, hsus, hmul, hskip]

/-- A configuration whose whitelist holds the exact phrase `gm`. -/
def cfgW : Config := Config.mk [] [] [] [] ["gm"]

/-- Witness for `filter_whitelist_skip_only_spam`: a whitelisted message from
a non-administrator goes through the phrase cascade with the spam state
untouched. -/
theorem filter_whitelist_skip_witness :
    check_message cfgW st0 (Msg.mk 7 "bob" none (some "gm") 0) [] 0 =
      (phrase_cascade cfgW (lowerStr "gm"), st0) :=
  (filter_whitelist_skip_only_spam cfgW st0 (Msg.mk 7 "bob" none (some "gm") 0) [] 0 "gm"
    rfl (by decide) (by decide) (by decide) (by decide) (by decide) (by decide)).1

/-- C8 counterexample: an administrator message whose trimmed text has length
1 is not deleted; the pipeline jumps straight to filter dispatch and allows
it, so the minimum-length check does not apply to administrators. -/
theorem admin_short_message_not_deleted :
    check_message cfgE st0 (Msg.mk 5 "bob" none (some "a") 0) [5] 0 =
      (Outcome.allowed, st0) := by decide

/-- C8 (amended): for a non-administrator message with nonempty text whose
trimmed text length is under 2 characters, the pipeline deletes the message
and stops; the check sits inside the administrator exemption, so it does not
apply to administrators. -/
theorem short_message_deleted_for_non_admin (cfg : Config) (st : SpamState) (m : Msg)
    (admin_ids : List UserId) (now : Time) (t : String)
    (ht : m.text = some t) (hne : t ≠ "") (hadm : m.user_id ∉ admin_ids)
    (hlen : strLen (stripStr (lowerStr t)) < 2) :
    check_message cfg st m admin_ids now = (Outcome.deletedShort, st) := by
  simp [check_message, ht, hne, hadm, hlen]

/-- Witness for `short_message_deleted_for_non_admin` on the one-character
message `a` from a non-administrator. -/
theorem short_message_deleted_witness :
    check_message cfgE st0 (Msg.mk 7 "bob" none (some "a") 0) [] 0 =
      (Outcome.deletedShort, st0) :=
  short_message_deleted_for_non_admin cfgE st0 (Msg.mk 7 "bob" none (some "a") 0) [] 0 "a"
    rfl (by decide) (by decide) (by decide)

/-- C9: when a non-administrator message matches some filter trigger, the
spam detector is never invoked: the spam state (windows and flag records)
comes out of `check_message` unchanged and no spam mute is issued, whatever
the spam state already holds for that text. -/
theorem filter_match_spam_frame (cfg : Config) (st : SpamState) (m : Msg)
    (admin_ids : List UserId) (now : Time) (t : String)
    (ht : m.text = some t) (hadm : m.user_id ∉ admin_ids)
    (hmatch : cfg.FILTERS.any (fun f => filter_trigger_match f.1 (lowerStr t)) = true) :
    (check_message cfg st m admin_ids now).2 = st ∧
    ∀ l, (check_message cfg st m admin_ids now).1 ≠ Outcome.spamMuted l := by
  have hskip : should_skip_spam cfg (lowerStr t) = true := by
    unfold should_skip_spam
    rw [hmatch]
    rfl
  simp only [check_message, ht]
  split_ifs with h1 h2 h3 h4
  · exact ⟨rfl, fun l h => by simp at h⟩
  · exact ⟨rfl, fun l h => by simp at h⟩
  · exact ⟨rfl, fun l h => by simp at h⟩
  · exact ⟨rfl, fun l h => by simp at h⟩
  · exact ⟨rfl, fun l => by simpa using phrase_cascade_ne_spamMuted cfg (lowerStr t) l⟩

/-- A configuration with the single filter trigger `gm`. -/
def cfgF : Config := Config.mk [("gm", fd0)] [] [] [] []

/-- A spam state whose live window already holds the text `gm` from another
sender, used to witness `filter_match_spam_frame`. -/
def stW : SpamState := SpamState.mk [("gm", Window.mk [(1, 0)] none)] []

/-- Witness for `filter_match_spam_frame`: the trigger `gm` matches, and the
spam state, which already holds the same text from another sender, is
returned unchanged. -/
theorem filter_match_spam_frame_witness :
    (check_message cfgF stW (Msg.mk 7 "bob" none (some "gm") 0) [] 0).2 = stW :=
  (filter_match_spam_frame cfgF stW (Msg.mk 7 "bob" none (some "gm") 0) [] 0 "gm"
    rfl (by decide) (by decide)).1

/-- C2: for a message from a chat administrator the pipeline takes none of
the moderation actions: the result is exactly the filter dispatch on the
lowercased text with the spam state unchanged, the dispatch outcome is a
response to the first matching trigger or a plain allow, and whenever some
trigger matches, a response is indeed sent. -/
theorem admin_only_filter_dispatch (cfg : Config) (st : SpamState) (m : Msg)
    (admin_ids : List UserId) (now : Time) (t : String)
    (ht : m.text = some t) (hne : t ≠ "") (hadm : m.user_id ∈ admin_ids) :
    check_message cfg st m admin_ids now = (filter_dispatch cfg (lowerStr t), st) ∧
    ((∃ p, p ∈ cfg.FILTERS ∧ filter_trigger_match p.1 (lowerStr t) = true ∧
        filter_dispatch cfg (lowerStr t) = Outcome.responded p.1) ∨
      filter_dispatch cfg (lowerStr t) = Outcome.allowed) ∧
    (cfg.FILTERS.any (fun f => filter_trigger_match f.1 (lowerStr t)) = true →
      ∃ p, p ∈ cfg.FILTERS ∧ filter_dispatch cfg (lowerStr t) = Outcome.responded p.1) := by
  refine ⟨by simp [check_message, ht, hne, hadm], filter_dispatch_shape cfg (lowerStr t), ?_⟩
  intro hany
  rcases filter_dispatch_shape cfg (lowerStr t) with ⟨p, hp, hpm, he⟩ | hall
  · exact ⟨p, hp, he⟩
  · exfalso
    rw [List.any_eq_true] at hany
    obtain ⟨x, hx, hpx⟩ := hany
    unfold filter_dispatch find_filter at hall
    cases hfind : cfg.FILTERS.find? (fun f => filter_trigger_match f.1 (lowerStr t)) with
    | none =>
      have hnone := List.find?_eq_none.mp hfind x hx
      exact hnone hpx
    | some q =>
      rw [hfind] at hall
      exact Outcome.noConfusion hall

/-- Witness for `admin_only_filter_dispatch`: an administrator message whose
text matches the trigger `gm` ends in filter dispatch with the state
unchanged. -/
theorem admin_filter_dispatch_witness :
    check_message cfgF st0 (Msg.mk 5 "bob" none (some "gm") 0) [5] 0 =
      (filter_dispatch cfgF (lowerStr "gm"), st0) :=
  (admin_only_filter_dispatch cfgF st0 (Msg.mk 5 "bob" none (some "gm") 0) [5] 0 "gm"
    rfl (by decide) (by decide)).1

theorem mem_spam_mute_set (st : SpamState) (text : String) (uid : UserId) (now : Time)
    (ts : Time) (hrec : alookup st.records text = some ts)
    (hdur : now - ts ≤ SPAM_RECORD_DURATION) :
    uid ∈ (spam_mute_set st text uid now).1 := by
  unfold spam_mute_set
  by_cases hmem : uid ∈ (check_for_spam st text uid now).1
  · split
    · exact List.mem_append_left _ hmem
    · exact hmem
  · have hrs : check_recent_spam (check_for_spam st text uid now).2 text now = true := by
      unfold check_recent_spam
      rcases check_for_spam_records st text uid now with h | h
      · rw [h, hrec]
        exact decide_eq_true hdur
      · rw [h, alookup_ainsert_self]
        have hz : now - now ≤ SPAM_RECORD_DURATION := by
          rw [sub_self]
          decide
        exact decide_eq_true hz
    rw [hrs]
    simp only [hmem, decide_False, Bool.not_false, Bool.and_self, if_true]
    exact List.mem_append_right _ (List.mem_singleton.mpr rfl)

/-- C5: when a flag record for the text exists and is within the retention
period, the sender of a message that reaches the spam step is muted: the
pipeline returns the spam-mute outcome, the sender belongs to the muted set,
and appears in it exactly once, whether or not the live window flagged them
as well. -/
theorem flagged_text_mutes_sender_once (cfg : Config) (st : SpamState) (m : Msg)
    (admin_ids : List UserId) (now : Time) (t : String) (ts : Time)
    (ht : m.text = some t) (hne : t ≠ "") (hadm : m.user_id ∉ admin_ids)
    (hlen : ¬ strLen (stripStr (lowerStr t)) < 2)
    (hsus : suspicious_name m = false)
    (hmul : contains_multiplication_phrase (lowerStr t) = false)
    (hskip : should_skip_spam cfg (lowerStr t) = false)
    (hrec : alookup st.records (lowerStr t) = some ts)
    (hdur : now - ts ≤ SPAM_RECORD_DURATION) :
    (check_message cfg st m admin_ids now).1 =
      Outcome.spamMuted (spam_mute_set st (lowerStr t) m.user_id now).1.dedup ∧
    m.user_id ∈ (spam_mute_set st (lowerStr t) m.user_id now).1.dedup ∧
    (spam_mute_set st (lowerStr t) m.user_id now).1.dedup.count m.user_id = 1 := by
  have hmem := mem_spam_mute_set st (lowerStr t) m.user_id now ts hrec hdur
  have hdm : m.user_id ∈ (spam_mute_set st (lowerStr t) m.user_id now).1.dedup :=
    List.mem_dedup.mpr hmem
  have hemp : (spam_mute_set st (lowerStr t) m.user_id now).1.isEmpty = false := by
    cases he : (spam_mute_set st (lowerStr t) m.user_id now).1 with
    | nil => rw [he] at hmem; cases hmem
    | cons a as => rfl
  refine ⟨?_, hdm, List.count_eq_one_of_mem (List.nodup_dedup _) hdm⟩
  simp [check_message, ht, hne, hadm, hlen, hsus, hmul, hskip, hemp]

/-- A spam state holding only a still-recent flag record for `spam`, used by
`flagged_text_mutes_witness`. -/
def stR : SpamState := SpamState.mk [] [("spam", 0)]

/-- Witness for `flagged_text_mutes_sender_once`: sender 9 posts the
previously flagged text `spam` ten seconds after the flag; the pipeline
mutes exactly that sender. -/
theorem flagged_text_mutes_witness :
    (check_message cfgE stR (Msg.mk 9 "bob" none (some "spam") 0) [] 10).1 =
      Outcome.spamMuted (spam_mute_set stR (lowerStr "spam") 9 10).1.dedup ∧
    9 ∈ (spam_mute_set stR (lowerStr "spam") 9 10).1.dedup ∧
    (spam_mute_set stR (lowerStr "spam") 9 10).1.dedup.count 9 = 1 :=
  flagged_text_mutes_sender_once cfgE stR (Msg.mk 9 "bob" none (some "spam") 0) [] 10
    "spam" 0 rfl (by decide) (by decide) (by decide) (by decide) (by decide) (by decide)
    (by decide) (by decide)
